import Mathlib

/-! OpenTelemetry for Go: the documented set-up, embedded.

The repository is one document.  It holds two docker-compose files, a
Dockerfile, a Prometheus scrape configuration and a series of Go listings that
configure the OpenTelemetry SDK.  The configuration files are embedded as data
(every scalar kept as the string the YAML holds) and the Go listings as
state-passing functions over a `World` that records, in order, every call the
listing makes into a library.
-/

namespace OTelGo

/-! ## Configuration files -/

/-- The `build:` entry of a compose service.  The short form `build: .` gives a
context and no Dockerfile name. -/
structure Build where
  context : String
  dockerfile : Option String
deriving DecidableEq, Repr

/-- One entry under `services:` of a compose file, with the keys the document
uses.  `ports` and `volumes` hold the YAML scalars as written. -/
structure Service where
  name : String
  image : Option String
  build : Option Build
  ports : List String
  volumes : List String
deriving DecidableEq, Repr

/-- A compose file of the document. -/
structure ComposeFile where
  file : String
  version : String
  services : List Service
deriving DecidableEq, Repr

/-- The file `docker-compose.yaml` of stage 1 (source lines 10-22). -/
def dockerComposeYaml : ComposeFile :=
  { file := "docker-compose.yaml"
    version := "3"
    services :=
      [ { name := "otel-collector"
          image := some "otel/opentelemetry-collector-dev:latest"
          build := none
          ports := ["4317:4317", "55680:55680"]
          volumes := [] },
        { name := "app"
          image := none
          build := some { context := ".", dockerfile := none }
          ports := ["8080:8080"]
          volumes := [] } ] }

/-- The file `docker-compose.yml` of the visualisation section (source lines
277-299). -/
def dockerComposeYml : ComposeFile :=
  { file := "docker-compose.yml"
    version := "3"
    services :=
      [ { name := "myapp"
          image := none
          build := some { context := ".", dockerfile := some "Dockerfile" }
          ports := ["8080:8080"]
          volumes := [] },
        { name := "jaeger"
          image := some "jaegertracing/all-in-one:latest"
          build := none
          ports := ["16686:16686"]
          volumes := [] },
        { name := "prometheus"
          image := some "prom/prometheus"
          build := none
          ports := ["9090:9090"]
          volumes := ["./prometheus.yml:/etc/prometheus/prometheus.yml"] } ] }

/-- The compose files the document defines, in document order. -/
def composeFiles : List ComposeFile := [dockerComposeYaml, dockerComposeYml]

/-- A file the document tells the reader to create, by name and lines. -/
structure DocFile where
  name : String
  lines : List String
deriving DecidableEq, Repr

/-- The `Dockerfile` of stage 1 (source lines 26-32). -/
def Dockerfile : DocFile :=
  { name := "Dockerfile"
    lines :=
      [ "FROM golang:latest",
        "WORKDIR /app",
        "COPY . .",
        "RUN go build -o main .",
        "CMD [\"./main\"]" ] }

/-- One entry of `scrape_configs:` with its static targets. -/
structure ScrapeConfig where
  job_name : String
  targets : List String
deriving DecidableEq, Repr

/-- The file `prometheus.yml` (source lines 310-318). -/
structure PrometheusYml where
  scrape_interval : String
  scrape_configs : List ScrapeConfig
deriving DecidableEq, Repr

/-- The scrape configuration of the document. -/
def prometheusYml : PrometheusYml :=
  { scrape_interval := "10s"
    scrape_configs := [ { job_name := "myapp", targets := ["myapp:8080"] } ] }

/-! ### Reading `a:b` scalars -/

/-- The characters before the first colon. -/
def beforeColon : List Char → List Char
  | [] => []
  | c :: cs => if c = ':' then [] else c :: beforeColon cs

/-- The characters after the first colon (empty when there is none). -/
def afterColon : List Char → List Char
  | [] => []
  | c :: cs => if c = ':' then cs else afterColon cs

/-- A decimal digit read as a number. -/
def digitValue (c : Char) : Option Nat :=
  if c.isDigit then some (c.toNat - '0'.toNat) else none

/-- A non-empty run of decimal digits read as a number, most significant digit
first; `acc` is the value of the digits already read. -/
def readDigits : List Char → Nat → Option Nat
  | [], acc => some acc
  | c :: cs, acc =>
    match digitValue c with
    | some d => readDigits cs (10 * acc + d)
    | none => none

/-- A port number written in decimal. -/
def readPort (cs : List Char) : Option Nat :=
  match cs with
  | [] => none
  | _ :: _ => readDigits cs 0

/-- A compose port entry `HOST:CONTAINER` as the pair of its two ports. -/
def portMapping (entry : String) : Option (Nat × Nat) :=
  match readPort (beforeColon entry.toList), readPort (afterColon entry.toList) with
  | some h, some c => some (h, c)
  | _, _ => none

/-- The host ports a service publishes. -/
def Service.hostPorts (s : Service) : List Nat :=
  (s.ports.filterMap portMapping).map Prod.fst

/-- The container ports a service publishes. -/
def Service.containerPorts (s : Service) : List Nat :=
  (s.ports.filterMap portMapping).map Prod.snd

/-- The host ports published by all services of one compose file. -/
def ComposeFile.hostPorts (f : ComposeFile) : List Nat :=
  f.services.flatMap Service.hostPorts

/-- The service of a compose file with the given name, if declared. -/
def ComposeFile.service? (f : ComposeFile) (name : String) : Option Service :=
  f.services.find? (fun s => s.name = name)

/-- Whether a compose file mounts `./prometheus.yml` into one of its services. -/
def ComposeFile.mountsPrometheusYml (f : ComposeFile) : Bool :=
  f.services.any (fun s => s.volumes.any
    (fun v => String.mk (beforeColon v.toList) = "./prometheus.yml"))

/-- The host part of a scrape target `host:port`. -/
def targetHost (t : String) : String := String.mk (beforeColon t.toList)

/-- The port part of a scrape target `host:port`. -/
def targetPort (t : String) : Option Nat := readPort (afterColon t.toList)

/-- All static targets of the scrape configuration. -/
def PrometheusYml.allTargets (p : PrometheusYml) : List String :=
  p.scrape_configs.flatMap ScrapeConfig.targets

/-! ## The Go listings: data -/

/-- A resource: the static attributes a provider attaches to what it emits. -/
structure Resource where
  attrs : List (String × String)
deriving DecidableEq, Repr

/-- The resource with no attribute. -/
def Resource.empty : Resource := { attrs := [] }

/-- The value of an attribute of a resource, if the resource carries it. -/
def Resource.get (r : Resource) (key : String) : Option String :=
  (r.attrs.find? (fun kv => kv.1 = key)).map Prod.snd

/-- The call `resource.NewWithAttributes` on the key-value pairs given. -/
def resource.NewWithAttributes (attrs : List (String × String)) : Resource :=
  { attrs := attrs }

/-- The call `label.String(key, value)`. -/
def label.String (key value : String) : String × String := (key, value)

/-- The options of `otlp.NewExporter`.  The listings use the first three;
`WithTLSCredentials` is the transport-security option of the library, which no
listing passes. -/
inductive ExporterOption where
  | WithInsecure
  | WithEndpoint (endpoint : String)
  | WithHTTPClient
  | WithTLSCredentials
deriving DecidableEq, Repr

/-- An exporter handle: the number it was created under and its options. -/
structure Exporter where
  id : Nat
  opts : List ExporterOption
deriving DecidableEq, Repr

/-- One span as a tracer mints it. -/
structure Span where
  traceId : Nat
  spanId : Nat
  parent : Option Nat
  tracer : String
  name : String
  resource : Resource
deriving DecidableEq, Repr

/-- A `context.Context`, reduced to the span it carries. -/
structure Context where
  span : Option Span
deriving DecidableEq, Repr

/-- The contexts `context.Background()` and `context.TODO()`. -/
def context.Background : Context := { span := none }

/-- A tracer provider: the exporter it batches to and its resource. -/
structure TracerProvider where
  exporter : Exporter
  resource : Resource
deriving DecidableEq, Repr

/-- The propagators the listings name. -/
inductive Propagator where
  | TraceContext
  | Baggage
deriving DecidableEq, Repr

/-- The options of `push.New`.  The listing passes `WithPeriod`; `WithResource`
is the option of the library that sets the resource of the controller, which
the listing does not pass. -/
inductive PushOption where
  | WithPeriod (seconds : Nat)
  | WithResource (r : Resource)
deriving DecidableEq, Repr

/-- The resource a list of push options configures: options apply in order,
so the last `WithResource` wins, and without one the resource is empty. -/
def PushOption.resourceOf (opts : List PushOption) : Resource :=
  opts.foldl (fun r o => match o with
    | PushOption.WithResource x => x
    | PushOption.WithPeriod _ => r) Resource.empty

/-- A meter provider: the resource its metrics are exported under. -/
structure MeterProvider where
  resource : Resource
deriving DecidableEq, Repr

/-- A library call a listing makes, with the arguments that matter. -/
inductive Event where
  | newExporter (opts : List ExporterOption) (err : Option String)
  | fatalf (msg : String)
  | shutdown (exporter : Nat)
  | registerExporter (exporter : Nat)
  | applyConfig (sampler : String)
  | spanStart (s : Span)
  | spanAddEvent (spanId : Nat) (name : String) (attrs : List (String × String))
  | spanEnd (spanId : Nat)
  | println (line : String)
  | notFound (path : String)
  | listen (addr : String)
  | newPrometheusExporter (err : Option String)
  | controllerStart
  | controllerStop
  | counterAdd (name : String) (n : Int) (labels : List (String × String)) (r : Resource)
deriving DecidableEq, Repr

/-- The state of one process: the calls made so far, oldest first, the next
fresh number for exporters and spans, and the process-wide providers and
propagator (`none` and `[]` are the defaults before any is installed). -/
structure World where
  events : List Event
  nextId : Nat
  tracerProvider : Option TracerProvider
  textMapPropagator : List Propagator
  meterProvider : Option MeterProvider
deriving DecidableEq, Repr

/-- The state of a process that has just started. -/
def World.init : World :=
  { events := [], nextId := 0, tracerProvider := none, textMapPropagator := [],
    meterProvider := none }

/-- Record one call. -/
def World.emit (w : World) (e : Event) : World :=
  { w with events := w.events ++ [e] }

/-- How a function body stops: it returns, it panics, or the process exits. -/
inductive Outcome where
  | returned
  | panicked
  | exited
deriving DecidableEq, Repr

/-- What the placeholder `// Perform instrumented operations` of a handler
does: it completes, it fails without unwinding, or it panics. -/
inductive Operations where
  | ok
  | error
  | panic
deriving DecidableEq, Repr

/-- What the listings cannot decide by themselves: the error (or `none` for
nil) each constructor returns, the requests that arrive while the server
listens (path and what the operations of the handler do), and the error
`ListenAndServe` returns at the end. -/
structure Lib where
  newExporterErr : Option String
  prometheusErr : Option String
  arrivals : List (String × Operations)
  listenErr : Option String
deriving DecidableEq, Repr

/-- A call registered with `defer`. -/
inductive Deferred where
  | Shutdown (e : Exporter)
  | End (s : Span)
  | Stop
deriving DecidableEq, Repr

/-! ## The Go listings: library calls -/

/-- The call `otlp.NewExporter(ctx, opts...)`: it returns the error the
library decides on, or a new exporter holding the options. -/
def otlp.NewExporter (lib : Lib) (opts : List ExporterOption) (w : World) :
    Except String Exporter × World :=
  match lib.newExporterErr with
  | some err => (Except.error err, w.emit (Event.newExporter opts (some err)))
  | none =>
    (Except.ok { id := w.nextId, opts := opts },
      { w.emit (Event.newExporter opts none) with nextId := w.nextId + 1 })

/-- The call `log.Fatalf`: the message is logged and the process exits at
once, so nothing registered with `defer` runs. -/
def log.Fatalf (msg : String) (w : World) : Outcome × World :=
  (Outcome.exited, w.emit (Event.fatalf msg))

/-- The call `exporter.Shutdown(ctx)`. -/
def Exporter.Shutdown (e : Exporter) (w : World) : World :=
  w.emit (Event.shutdown e.id)

/-- The call `span.End()`. -/
def Span.End (s : Span) (w : World) : World :=
  w.emit (Event.spanEnd s.spanId)

/-- The call `span.AddEvent(name, trace.WithAttributes(attrs...))`. -/
def Span.AddEvent (s : Span) (name : String) (attrs : List (String × String))
    (w : World) : World :=
  w.emit (Event.spanAddEvent s.spanId name attrs)

/-- Run one deferred call. -/
def Deferred.run : Deferred → World → World
  | Deferred.Shutdown e, w => e.Shutdown w
  | Deferred.End s, w => s.End w
  | Deferred.Stop, w => w.emit Event.controllerStop

/-- Run the deferred calls of a function, the one registered last first.  The
list is the stack of the function: `defer` puts a call at its head. -/
def runDeferred : List Deferred → World → World
  | [], w => w
  | d :: rest, w => runDeferred rest (d.run w)

/-- The end of a function body: on return and on panic the deferred calls run;
when the process has exited they do not. -/
def finish (out : Outcome) (deferred : List Deferred) (w : World) : Outcome × World :=
  match out with
  | Outcome.exited => (Outcome.exited, w)
  | Outcome.returned => (Outcome.returned, runDeferred deferred w)
  | Outcome.panicked => (Outcome.panicked, runDeferred deferred w)

/-- A tracer: its instrumentation name and the resource of the provider that
made it. -/
structure Tracer where
  name : String
  resource : Resource
deriving DecidableEq, Repr

/-- The call `provider.Tracer(name)` on the process-wide provider, which is
also `otel.Tracer(name)`.  Before a provider is installed the default one
carries no resource. -/
def otel.Tracer (name : String) (w : World) : Tracer :=
  { name := name
    resource := match w.tracerProvider with
      | some tp => tp.resource
      | none => Resource.empty }

/-- The call `tracer.Start(ctx, name)`: a new span, child of the span the
context carries and in its trace, or the root of a new trace when the context
carries none.  The returned context carries the new span. -/
def Tracer.Start (t : Tracer) (ctx : Context) (name : String) (w : World) :
    (Context × Span) × World :=
  let span : Span :=
    { traceId := match ctx.span with
        | some p => p.traceId
        | none => w.nextId
      spanId := w.nextId
      parent := ctx.span.map Span.spanId
      tracer := t.name
      name := name
      resource := t.resource }
  (({ span := some span }, span),
    { w.emit (Event.spanStart span) with nextId := w.nextId + 1 })

/-- The call `otel.SetTracerProvider(tp)`. -/
def otel.SetTracerProvider (tp : TracerProvider) (w : World) : World :=
  { w with tracerProvider := some tp }

/-- The call `otel.SetTextMapPropagator(p)`. -/
def otel.SetTextMapPropagator (p : List Propagator) (w : World) : World :=
  { w with textMapPropagator := p }

/-- The call `propagation.NewCompositeTextMapPropagator(ps...)`. -/
def propagation.NewCompositeTextMapPropagator (ps : List Propagator) : List Propagator := ps

/-- The call `metric.SetMeterProvider(mp)`. -/
def metric.SetMeterProvider (mp : MeterProvider) (w : World) : World :=
  { w with meterProvider := some mp }

/-- The call `trace.RegisterExporter(exporter)`. -/
def trace.RegisterExporter (e : Exporter) (w : World) : World :=
  w.emit (Event.registerExporter e.id)

/-- The call `trace.ApplyConfig(trace.Config` with the sampler given. -/
def trace.ApplyConfig (sampler : String) (w : World) : World :=
  w.emit (Event.applyConfig sampler)

/-- The call `fmt.Println(line)`. -/
def fmt.Println (line : String) (w : World) : World :=
  w.emit (Event.println line)

/-! ## The Go listings -/

/-- The function `main` of stage 3 (source lines 67-87). -/
def Stage3.main (lib : Lib) (w : World) : Outcome × World :=
  match otlp.NewExporter lib
      [ExporterOption.WithInsecure,
       ExporterOption.WithEndpoint "http://otel-collector:4317",
       ExporterOption.WithHTTPClient] w with
  | (Except.error err, w1) => log.Fatalf ("Failed to create exporter: " ++ err) w1
  | (Except.ok exporter, w1) =>
    let deferred := [Deferred.Shutdown exporter]
    let tracer := otel.Tracer "example" w1
    let w2 := trace.RegisterExporter exporter w1
    let w3 := trace.ApplyConfig "AlwaysSample" w2
    let started := tracer.Start context.Background "sayHello" w3
    let deferred := Deferred.End started.1.2 :: deferred
    let w4 := fmt.Println "Hello, OpenTelemetry!" started.2
    finish Outcome.returned deferred w4

/-- Step 2 of the instrumentation section (source lines 126-134), taken as a
function body that returns where the listing ends. -/
def Instrument.step2 (lib : Lib) (w : World) : Outcome × World :=
  match otlp.NewExporter lib
      [ExporterOption.WithInsecure,
       ExporterOption.WithEndpoint "http://otel-collector:4317",
       ExporterOption.WithHTTPClient] w with
  | (Except.error err, w1) => log.Fatalf ("Failed to create exporter: " ++ err) w1
  | (Except.ok exporter, w1) =>
    let deferred := [Deferred.Shutdown exporter]
    finish Outcome.returned deferred w1

/-- Step 3 of the instrumentation section (source lines 140-150), taken as a
function body that returns where the listing ends.  The provider and the
tracer it fetches are values; fetching them calls nothing that is recorded. -/
def Instrument.step3 (lib : Lib) (w : World) : Outcome × World :=
  match otlp.NewExporter lib
      [ExporterOption.WithInsecure,
       ExporterOption.WithEndpoint "http://otel-collector:4317",
       ExporterOption.WithHTTPClient] w with
  | (Except.error err, w1) => log.Fatalf ("Failed to create exporter: " ++ err) w1
  | (Except.ok exporter, w1) =>
    let deferred := [Deferred.Shutdown exporter]
    let _tracer := otel.Tracer "example" w1
    finish Outcome.returned deferred w1

/-- Step 4 of the instrumentation section (source lines 156-165): a provider
built from the resource and the exporter is installed process-wide. -/
def Instrument.step4 (exporter : Exporter) (w : World) : World :=
  otel.SetTracerProvider
    { resource := resource.NewWithAttributes [("service.name", "my-service")]
      exporter := exporter } w

/-- Step 5 of the instrumentation section (source lines 171-175), taken as a
function body that returns where the listing ends. -/
def Instrument.step5 (w : World) : Outcome × World :=
  let started := (otel.Tracer "my-component" w).Start context.Background "my-operation" w
  let deferred := [Deferred.End started.1.2]
  finish Outcome.returned deferred started.2

/-- The function `initTracer` (source lines 203-222).  The result is the error
returned, `none` for nil. -/
def initTracer (lib : Lib) (w : World) : Option String × World :=
  match otlp.NewExporter lib
      [ExporterOption.WithInsecure,
       ExporterOption.WithEndpoint "http://otel-collector:4317",
       ExporterOption.WithHTTPClient] w with
  | (Except.error err, w1) => (some err, w1)
  | (Except.ok exporter, w1) =>
    let tp : TracerProvider :=
      { exporter := exporter
        resource := resource.NewWithAttributes [label.String "service.name" "my-service"] }
    let w2 := otel.SetTracerProvider tp w1
    let w3 := otel.SetTextMapPropagator
      (propagation.NewCompositeTextMapPropagator [Propagator.TraceContext, Propagator.Baggage]) w2
    (none, w3)

/-- An `*http.Request`: its path, its context, and what the operations of the
handler that serves it will do. -/
structure Request where
  path : String
  ctx : Context
  operations : Operations
deriving DecidableEq, Repr

/-- An HTTP handler: it serves one request and stops one way or another. -/
abbrev Handler := Request → World → Outcome × World

/-- The function `myHandler` (source lines 228-238). -/
def myHandler (r : Request) (w : World) : Outcome × World :=
  let ctx := r.ctx
  let tracer := otel.Tracer "my-component" w
  let started := tracer.Start ctx "my-operation" w
  let span := started.1.2
  let deferred := [Deferred.End span]
  match r.operations with
  | Operations.panic => finish Outcome.panicked deferred started.2
  | Operations.error | Operations.ok =>
    let w1 := span.AddEvent "my-event" [label.String "key" "value"] started.2
    finish Outcome.returned deferred w1

/-- Modelled from the spec: `otelhttp.NewHandler` belongs to a library and is
not part of the document.  Following section 4.3, the wrapped handler opens,
for each request, a span named after the operation, runs the handler with the
span in the context of the request, and closes the span when the handler
returns, on every exit path. -/
def otelhttp.NewHandler (handler : Handler) (operation : String) : Handler :=
  fun r w =>
    let started := (otel.Tracer "otelhttp" w).Start r.ctx operation w
    let deferred := [Deferred.End started.1.2]
    let served := handler { r with ctx := started.1.1 } started.2
    finish served.1 deferred served.2

/-- The reply of a multiplexer to a path nothing is registered for. -/
def http.NotFound : Handler :=
  fun r w => (Outcome.returned, w.emit (Event.notFound r.path))

/-- The registrations of `http.DefaultServeMux`: the document makes one
(source line 244). -/
def http.DefaultServeMux : List (String × Handler) :=
  [("/path", otelhttp.NewHandler myHandler "handler-name")]

/-- A multiplexer as a handler: a pattern without a trailing slash serves the
requests for exactly that path. -/
def http.ServeMux (mux : List (String × Handler)) : Handler :=
  fun r w =>
    match mux.find? (fun e => e.1 = r.path) with
    | some e => e.2 r w
    | none => http.NotFound r w

/-- An `http.Server` with the fields the listing sets. -/
structure http.Server where
  Addr : String
  Handler : Handler

/-- The error `http.ErrServerClosed`. -/
def http.ErrServerClosed : String := "http: Server closed"

/-- The requests of a server served in arrival order, each with the context
the server creates for it.  A panic of a handler is recovered by the server
and ends that request only. -/
def http.serve (h : Handler) : List (String × Operations) → World → Outcome × World
  | [], w => (Outcome.returned, w)
  | a :: rest, w =>
    match h { path := a.1, ctx := context.Background, operations := a.2 } w with
    | (Outcome.exited, w1) => (Outcome.exited, w1)
    | (Outcome.returned, w1) => http.serve h rest w1
    | (Outcome.panicked, w1) => http.serve h rest w1

/-- The call `srv.ListenAndServe()`: the server listens on its address, serves
what arrives and returns the error the library decides on. -/
def http.Server.ListenAndServe (srv : http.Server) (lib : Lib) (w : World) :
    Outcome × Option String × World :=
  match http.serve srv.Handler lib.arrivals (w.emit (Event.listen srv.Addr)) with
  | (Outcome.exited, w1) => (Outcome.exited, none, w1)
  | (_, w1) => (Outcome.returned, lib.listenErr, w1)

/-- The server value `srv` of the listing (source lines 258-261). -/
def Server.srv : http.Server :=
  { Addr := ":8080"
    Handler := otelhttp.NewHandler (http.ServeMux http.DefaultServeMux) "http-server" }

/-- The function `main` of the HTTP server (source lines 250-267). -/
def Server.main (lib : Lib) (w : World) : Outcome × World :=
  match initTracer lib w with
  | (some err, w1) => log.Fatalf ("Failed to initialize tracer: " ++ err) w1
  | (none, w1) =>
    let srv := Server.srv
    match srv.ListenAndServe lib w1 with
    | (Outcome.exited, _, w2) => (Outcome.exited, w2)
    | (_, err, w2) =>
      if err ≠ none ∧ err ≠ some http.ErrServerClosed then
        log.Fatalf ("Failed to listen and serve: " ++ err.getD "") w2
      else finish Outcome.returned [] w2

/-- Step 5 of the visualisation section (source lines 336-349): the deferred
calls it registers and the state it leaves. -/
def Metrics.step5 (lib : Lib) (w : World) : List Deferred × World :=
  let w1 := w.emit (Event.newPrometheusExporter lib.prometheusErr)
  if lib.prometheusErr = none then
    let pusher : List PushOption := [PushOption.WithPeriod 1]
    let w2 := w1.emit Event.controllerStart
    let deferred := [Deferred.Stop]
    let w3 := metric.SetMeterProvider { resource := PushOption.resourceOf pusher } w2
    (deferred, w3)
  else ([], w1)

/-- Step 6 of the visualisation section (source lines 355-358).  The context
is the free variable `ctx` of the listing; the meter carries the resource of
the process-wide meter provider. -/
def Metrics.step6 (_ctx : Context) (w : World) : World :=
  let meter : Resource := match w.meterProvider with
    | some mp => mp.resource
    | none => Resource.empty
  w.emit (Event.counterAdd "requests_total" 1 [label.String "path" "/api/foo"] meter)

/-- Steps 5 and 6 of the visualisation section in document order, as one
function body that returns where step 6 ends. -/
def Metrics.example (lib : Lib) (ctx : Context) (w : World) : Outcome × World :=
  let s5 := Metrics.step5 lib w
  let w1 := Metrics.step6 ctx s5.2
  finish Outcome.returned s5.1 w1

/-! ## Reading a log and a configuration -/

/-- Whether a compose port entry parses and maps a host port to the same
container port. -/
def hostEqualsContainer (entry : String) : Bool :=
  match portMapping entry with
  | some m => m.1 = m.2
  | none => false

/-- The port of a listen address `host:port`, such as the `Addr` of a server. -/
def listenPort (addr : String) : Option Nat := readPort (afterColon addr.toList)

/-- The endpoints a list of exporter options configures. -/
def endpointsOf (opts : List ExporterOption) : List String :=
  opts.filterMap (fun o => match o with
    | ExporterOption.WithEndpoint e => some e
    | _ => none)

/-- The option lists of the `otlp.NewExporter` calls of a log, in order. -/
def newExporterCalls (evs : List Event) : List (List ExporterOption) :=
  evs.filterMap (fun e => match e with
    | Event.newExporter opts _ => some opts
    | _ => none)

/-- The spans a log opens, in order. -/
def spansOpened (evs : List Event) : List Span :=
  evs.filterMap (fun e => match e with
    | Event.spanStart s => some s
    | _ => none)

/-- The span numbers a log closes, in order, one entry for each `End`. -/
def spansClosed (evs : List Event) : List Nat :=
  evs.filterMap (fun e => match e with
    | Event.spanEnd id => some id
    | _ => none)

/-- How often a log opens the span with the given number. -/
def startCount (id : Nat) (evs : List Event) : Nat :=
  ((spansOpened evs).map Span.spanId).count id

/-- How often a log closes the span with the given number. -/
def endCount (id : Nat) (evs : List Event) : Nat :=
  (spansClosed evs).count id

/-- How often a log shuts an exporter down. -/
def shutdownCount (evs : List Event) : Nat :=
  evs.countP (fun e => match e with
    | Event.shutdown _ => true
    | _ => false)

/-- The spans that are open at the moment of a shutdown.  The scan keeps the
numbers of the spans opened and not yet closed; at each `Shutdown` it reports
them. -/
def openAtShutdown : List Event → List Nat → List Nat
  | [], _ => []
  | Event.spanStart s :: rest, live => openAtShutdown rest (s.spanId :: live)
  | Event.spanEnd id :: rest, live => openAtShutdown rest (live.erase id)
  | Event.shutdown _ :: rest, live => live ++ openAtShutdown rest live
  | _ :: rest, live => openAtShutdown rest live

/-- The root spans of a log: those opened without a parent. -/
def rootSpans (evs : List Event) : List Span :=
  (spansOpened evs).filter (fun s => s.parent = none)

/-- The traces of a log: the distinct trace numbers of its spans. -/
def traceIds (evs : List Event) : List Nat :=
  ((spansOpened evs).map Span.traceId).dedup

/-- How often a log adds to the counter with the given name. -/
def counterAdds (name : String) (evs : List Event) : Nat :=
  evs.countP (fun e => match e with
    | Event.counterAdd n _ _ _ => n = name
    | _ => false)

/-- The resources under which a log records metrics, one for each addition. -/
def metricResources (evs : List Event) : List Resource :=
  evs.filterMap (fun e => match e with
    | Event.counterAdd _ _ _ r => some r
    | _ => none)

/-- Fail-fast: the process has exited and the last thing it did was to log a
fatal message. -/
def failsFast (run : Outcome × World) : Bool :=
  run.1 = Outcome.exited &&
    match run.2.events.getLast? with
    | some (Event.fatalf _) => true
    | _ => false

/-- A library under which every constructor succeeds and nothing arrives. -/
def Lib.quiet : Lib :=
  { newExporterErr := none, prometheusErr := none, arrivals := [],
    listenErr := some http.ErrServerClosed }

/-! ## What serving requests adds to the log -/

/-- The spans a log opens under the given name. -/
def spansNamed (name : String) (evs : List Event) : List Span :=
  (spansOpened evs).filter (fun s => s.name = name)

/-- The resource the tracers of a process carry at the moment. -/
def World.resource (w : World) : Resource := (otel.Tracer "" w).resource

/-- The resource the listings give a tracer provider. -/
def serviceResource : Resource := { attrs := [("service.name", "my-service")] }

/-- How many fresh span numbers serving one arrival takes: three on the
registered path, one elsewhere. -/
def spanIdsOf (a : String × Operations) : Nat := if a.1 = "/path" then 3 else 1

/-- The calls that serving one arrival adds to the log, when the next fresh
number is `n` and tracers carry the resource `res`.  The theorem `handler_run`
shows that the handler of the server makes exactly these calls. -/
def requestEvents (a : String × Operations) (n : Nat) (res : Resource) : List Event :=
  let root : Span :=
    { traceId := n, spanId := n, parent := none, tracer := "otelhttp",
      name := "http-server", resource := res }
  if a.1 = "/path" then
    let mid : Span :=
      { traceId := n, spanId := n + 1, parent := some n, tracer := "otelhttp",
        name := "handler-name", resource := res }
    let leaf : Span :=
      { traceId := n, spanId := n + 2, parent := some (n + 1), tracer := "my-component",
        name := "my-operation", resource := res }
    [Event.spanStart root, Event.spanStart mid, Event.spanStart leaf] ++
      (match a.2 with
        | Operations.panic => []
        | _ => [Event.spanAddEvent (n + 2) "my-event" [("key", "value")]]) ++
      [Event.spanEnd (n + 2), Event.spanEnd (n + 1), Event.spanEnd n]
  else [Event.spanStart root, Event.notFound a.1, Event.spanEnd n]

/-- The calls that serving a burst of arrivals adds to the log. -/
def burstEvents : List (String × Operations) → Nat → Resource → List Event
  | [], _, _ => []
  | a :: rest, n, res => requestEvents a n res ++ burstEvents rest (n + spanIdsOf a) res

/-- How many fresh span numbers serving a burst takes. -/
def burstIds : List (String × Operations) → Nat
  | [] => 0
  | a :: rest => spanIdsOf a + burstIds rest

/-- What the `main` of the server logs after `ListenAndServe` has returned. -/
def serverTail (lib : Lib) : List Event :=
  if lib.listenErr ≠ none ∧ lib.listenErr ≠ some http.ErrServerClosed then
    [Event.fatalf ("Failed to listen and serve: " ++ lib.listenErr.getD "")]
  else []


/-! ## Configuration files: theorems -/

/-- C4: every scrape target of `prometheus.yml` names a service of the compose
file that mounts `prometheus.yml`, the port of the target is a container port
that this service publishes, and it is the port on which the Go server
listens. -/
theorem scrape_targets_match_compose_and_server :
    (composeFiles.filter ComposeFile.mountsPrometheusYml = [dockerComposeYml]) ∧
    prometheusYml.allTargets = ["myapp:8080"] ∧
    (∀ f ∈ composeFiles.filter ComposeFile.mountsPrometheusYml,
      ∀ t ∈ prometheusYml.allTargets,
        ∃ s ∈ f.services, s.name = targetHost t ∧
          (∃ p ∈ s.containerPorts, targetPort t = some p) ∧
          targetPort t = listenPort Server.srv.Addr) ∧
    (dockerComposeYml.service? "myapp").map Service.ports = some ["8080:8080"] ∧
    Server.srv.Addr = ":8080" := by
  refine ⟨by decide, by decide, ?_, by decide, rfl⟩
  decide

/-- C7: the compose files declare a collector, an application, a Jaeger and a
Prometheus service with the host ports 4317 and 55680, 8080, 16686 and 9090;
every port entry maps a host port to the same container port, and within one
compose file no host port is published twice. -/
theorem compose_host_ports_fixed :
    dockerComposeYaml.services.map (fun s => (s.name, s.hostPorts)) =
      [("otel-collector", [4317, 55680]), ("app", [8080])] ∧
    dockerComposeYml.services.map (fun s => (s.name, s.hostPorts)) =
      [("myapp", [8080]), ("jaeger", [16686]), ("prometheus", [9090])] ∧
    (∀ f ∈ composeFiles, ∀ s ∈ f.services, ∀ p ∈ s.ports,
      hostEqualsContainer p = true) ∧
    (∀ f ∈ composeFiles, f.hostPorts.Nodup) := by
  refine ⟨by decide, by decide, by decide, by decide⟩

/-- C8: every service of both compose files declares an image or a build
context: `otel-collector`, `jaeger` and `prometheus` an image, `app` and
`myapp` a build context, and a build that names a Dockerfile names the
Dockerfile of the document. -/
theorem compose_services_resolvable :
    (∀ f ∈ composeFiles, ∀ s ∈ f.services,
      (s.image.isSome = true ∨ s.build.isSome = true) ∧
      (∀ b ∈ s.build, ∀ d ∈ b.dockerfile, d = Dockerfile.name)) ∧
    ((composeFiles.flatMap ComposeFile.services).filter
        (fun s => s.image.isSome)).map Service.name =
      ["otel-collector", "jaeger", "prometheus"] ∧
    ((composeFiles.flatMap ComposeFile.services).filter
        (fun s => s.build.isSome)).map (fun s => (s.name, s.build.map Build.context)) =
      [("app", some "."), ("myapp", some ".")] ∧
    (composeFiles.flatMap ComposeFile.services).map Service.name =
      ["otel-collector", "app", "myapp", "jaeger", "prometheus"] := by
  refine ⟨by decide, by decide, by decide, by decide⟩


/-! ## Exporter construction and fail-fast: theorems -/

/-- C6, as stated, fails: the endpoint the `main` of stage 3 configures is not
`otel-collector:4317`. -/
theorem stage3_endpoint_not_bare_host_port :
    ¬ ((newExporterCalls (Stage3.main Lib.quiet World.init).2.events).map endpointsOf =
        [["otel-collector:4317"]]) := by
  decide

/-- C6, amended: each listing that constructs an OTLP exporter (the `main` of
stage 3, steps 2 and 3 of the instrumentation section and `initTracer`) makes
one call of `otlp.NewExporter`, with exactly the insecure option, one endpoint
and an HTTP client; the endpoint configured is the literal
`http://otel-collector:4317`, the host and port of the collector written after
an `http://` scheme, and no TLS option is passed. -/
theorem exporters_insecure_http_scheme_endpoint (lib : Lib) :
    let opts := [ExporterOption.WithInsecure,
      ExporterOption.WithEndpoint "http://otel-collector:4317",
      ExporterOption.WithHTTPClient]
    newExporterCalls (Stage3.main lib World.init).2.events = [opts] ∧
    newExporterCalls (Instrument.step2 lib World.init).2.events = [opts] ∧
    newExporterCalls (Instrument.step3 lib World.init).2.events = [opts] ∧
    newExporterCalls (initTracer lib World.init).2.events = [opts] ∧
    ExporterOption.WithInsecure ∈ opts ∧
    ExporterOption.WithHTTPClient ∈ opts ∧
    endpointsOf opts = ["http://otel-collector:4317"] ∧
    endpointsOf opts = ["http://" ++ "otel-collector:4317"] ∧
    ExporterOption.WithTLSCredentials ∉ opts := by
  intro opts
  refine ⟨?_, ?_, ?_, ?_, by decide, by decide, by decide, by decide, by decide⟩ <;>
    cases h : lib.newExporterErr <;>
    simp [Stage3.main, Instrument.step2, Instrument.step3, initTracer, otlp.NewExporter, h,
      log.Fatalf, finish, runDeferred, Deferred.run, Exporter.Shutdown, Span.End,
      trace.RegisterExporter, trace.ApplyConfig, fmt.Println, Tracer.Start, otel.Tracer,
      otel.SetTracerProvider, otel.SetTextMapPropagator, World.emit, World.init,
      newExporterCalls, opts]

/-- C10: in the `main` of stage 3, when the exporter is constructed, the
function returns, the span `sayHello` is ended once and then the exporter is
shut down once, these being the last two calls, so that no span is open at
the shutdown; when the construction fails the process exits after the fatal
log and neither `End` nor `Shutdown` is called. -/
theorem stage3_ends_span_then_shuts_down (lib : Lib) (err : String) :
    (let run := Stage3.main { lib with newExporterErr := none } World.init
     run.1 = Outcome.returned ∧
     (spansOpened run.2.events).map (fun s => (s.spanId, s.name)) = [(1, "sayHello")] ∧
     endCount 1 run.2.events = 1 ∧
     shutdownCount run.2.events = 1 ∧
     run.2.events.drop 5 = [Event.spanEnd 1, Event.shutdown 0] ∧
     run.2.events.indexOf (Event.spanEnd 1) < run.2.events.indexOf (Event.shutdown 0) ∧
     openAtShutdown run.2.events [] = []) ∧
    (let run := Stage3.main { lib with newExporterErr := some err } World.init
     run.1 = Outcome.exited ∧
     run.2.events =
       [Event.newExporter
          [ExporterOption.WithInsecure,
           ExporterOption.WithEndpoint "http://otel-collector:4317",
           ExporterOption.WithHTTPClient] (some err),
        Event.fatalf ("Failed to create exporter: " ++ err)] ∧
     spansClosed run.2.events = [] ∧
     shutdownCount run.2.events = 0) := by
  have hev : (Stage3.main { lib with newExporterErr := none } World.init).2.events =
      [Event.newExporter
         [ExporterOption.WithInsecure,
          ExporterOption.WithEndpoint "http://otel-collector:4317",
          ExporterOption.WithHTTPClient] none,
       Event.registerExporter 0,
       Event.applyConfig "AlwaysSample",
       Event.spanStart
         { traceId := 1, spanId := 1, parent := none, tracer := "example",
           name := "sayHello", resource := Resource.empty },
       Event.println "Hello, OpenTelemetry!",
       Event.spanEnd 1,
       Event.shutdown 0] := rfl
  refine ⟨⟨rfl, ?_, ?_, ?_, ?_, ?_, ?_⟩, ⟨rfl, rfl, rfl, rfl⟩⟩ <;> rw [hev] <;> decide

/-- C9: `initTracer` returns exactly the error of the exporter construction,
so it returns a non-nil error if and only if the construction fails; on
failure the process-wide tracer provider and propagator are what they were;
on success nil is returned, the provider installed wraps the new exporter and
a resource with `service.name`, and the propagator installed is the composite
of trace context and baggage. -/
theorem initTracer_error_iff_and_effects (lib : Lib) (w : World) (err : String) :
    (initTracer lib w).1 = lib.newExporterErr ∧
    ((initTracer lib w).1 ≠ none ↔ lib.newExporterErr ≠ none) ∧
    (let run := initTracer { lib with newExporterErr := some err } w
     run.1 = some err ∧
     run.2.tracerProvider = w.tracerProvider ∧
     run.2.textMapPropagator = w.textMapPropagator) ∧
    (let run := initTracer { lib with newExporterErr := none } w
     run.1 = none ∧
     run.2.tracerProvider = some
       { exporter :=
           { id := w.nextId
             opts := [ExporterOption.WithInsecure,
               ExporterOption.WithEndpoint "http://otel-collector:4317",
               ExporterOption.WithHTTPClient] }
         resource := { attrs := [("service.name", "my-service")] } } ∧
     (run.2.tracerProvider.map (fun tp => tp.resource.get "service.name")) =
       some (some "my-service") ∧
     run.2.textMapPropagator = [Propagator.TraceContext, Propagator.Baggage]) := by
  have h1 : (initTracer lib w).1 = lib.newExporterErr := by
    cases h : lib.newExporterErr <;> simp [initTracer, otlp.NewExporter, h]
  refine ⟨h1, by rw [h1], ⟨rfl, rfl, rfl⟩, ⟨rfl, rfl, ?_, rfl⟩⟩
  simp [initTracer, otlp.NewExporter, otel.SetTracerProvider, otel.SetTextMapPropagator,
    resource.NewWithAttributes, label.String, Resource.get]


/-! ## Serving requests: lemmas -/

/-- The handler of the server, on one arrival, makes the calls of
`requestEvents`, takes `spanIdsOf` fresh numbers and leaves the rest of the
state alone; it panics exactly when the operations on the registered path do. -/
theorem handler_run (a : String × Operations) (w : World) :
    Server.srv.Handler { path := a.1, ctx := context.Background, operations := a.2 } w =
      (if a.1 = "/path" ∧ a.2 = Operations.panic then Outcome.panicked else Outcome.returned,
       { w with events := w.events ++ requestEvents a w.nextId w.resource
                nextId := w.nextId + spanIdsOf a }) := by
  obtain ⟨path, ops⟩ := a
  by_cases hp : path = "/path"
  · subst hp
    cases ops <;>
    simp [Server.srv, otelhttp.NewHandler, http.ServeMux, http.DefaultServeMux, myHandler,
      finish, runDeferred, Deferred.run, Span.End, Span.AddEvent, Tracer.Start, otel.Tracer,
      World.emit, context.Background, requestEvents, spanIdsOf, World.resource, label.String,
      http.NotFound]
  · simp [Server.srv, otelhttp.NewHandler, http.ServeMux, http.DefaultServeMux, myHandler,
      finish, runDeferred, Deferred.run, Span.End, Span.AddEvent, Tracer.Start, otel.Tracer,
      World.emit, context.Background, requestEvents, spanIdsOf, World.resource, label.String,
      http.NotFound, hp, Ne.symm hp]

/-- Serving a burst returns and adds the calls of `burstEvents`. -/
theorem serve_run (arrivals : List (String × Operations)) (w : World) :
    http.serve Server.srv.Handler arrivals w =
      (Outcome.returned,
       { w with events := w.events ++ burstEvents arrivals w.nextId w.resource
                nextId := w.nextId + burstIds arrivals }) := by
  induction arrivals generalizing w with
  | nil => simp [http.serve, burstEvents, burstIds]
  | cons a rest ih =>
    unfold http.serve
    rw [handler_run]
    by_cases hp : a.1 = "/path" ∧ a.2 = Operations.panic
    · simp only [hp, and_self, if_true]
      rw [ih]
      simp [burstEvents, burstIds, World.resource, otel.Tracer, Nat.add_assoc]
    · simp only [hp, if_false]
      rw [ih]
      simp [burstEvents, burstIds, World.resource, otel.Tracer, Nat.add_assoc]

/-- Span openings add up over an appended log. -/
theorem startCount_append (id : Nat) (xs ys : List Event) :
    startCount id (xs ++ ys) = startCount id xs + startCount id ys := by
  simp [startCount, spansOpened, List.filterMap_append]

/-- Span closings add up over an appended log. -/
theorem endCount_append (id : Nat) (xs ys : List Event) :
    endCount id (xs ++ ys) = endCount id xs + endCount id ys := by
  simp [endCount, spansClosed, List.filterMap_append]

/-- One request closes each span number as often as it opens it, opens none
twice, and opens only numbers it has taken. -/
theorem request_counts (a : String × Operations) (n : Nat) (res : Resource) (id : Nat) :
    endCount id (requestEvents a n res) = startCount id (requestEvents a n res) ∧
    startCount id (requestEvents a n res) ≤ 1 ∧
    (id < n → startCount id (requestEvents a n res) = 0) ∧
    (n + spanIdsOf a ≤ id → startCount id (requestEvents a n res) = 0) := by
  obtain ⟨path, ops⟩ := a
  by_cases hp : path = "/path"
  · cases ops <;>
      simp only [requestEvents, spanIdsOf, hp, startCount, endCount, spansOpened, spansClosed,
        List.count_cons, List.filterMap_cons, List.filterMap_nil, List.map_cons, List.map_nil,
        List.cons_append, List.nil_append, List.count_nil, if_true, beq_iff_eq, zero_add] <;>
      refine ⟨?_, ?_, ?_, ?_⟩ <;> (try intro h) <;> (try split_ifs) <;> first | trivial | omega
  · simp only [requestEvents, spanIdsOf, hp, startCount, endCount, spansOpened, spansClosed,
        List.count_cons, List.filterMap_cons, List.filterMap_nil, List.map_cons, List.map_nil,
        List.cons_append, List.nil_append, List.count_nil, if_false, beq_iff_eq, zero_add]
    refine ⟨?_, ?_, ?_, ?_⟩ <;> (try intro h) <;> (try split_ifs) <;> first | trivial | omega

/-- The spans opened by an appended log. -/
theorem spansOpened_append (xs ys : List Event) :
    spansOpened (xs ++ ys) = spansOpened xs ++ spansOpened ys := by
  simp [spansOpened, List.filterMap_append]

/-- The spans closed by an appended log. -/
theorem spansClosed_append (xs ys : List Event) :
    spansClosed (xs ++ ys) = spansClosed xs ++ spansClosed ys := by
  simp [spansClosed, List.filterMap_append]

/-- One request closes as many spans as it opens, opens one span of the
handler on the registered path and none elsewhere, gives each span the
resource of the tracer, and adds to no counter. -/
theorem request_spans (a : String × Operations) (n : Nat) (res : Resource) :
    (spansClosed (requestEvents a n res)).length = (spansOpened (requestEvents a n res)).length ∧
    (spansNamed "my-operation" (requestEvents a n res)).length =
      (if a.1 = "/path" then 1 else 0) ∧
    (spansNamed "handler-name" (requestEvents a n res)).length =
      (if a.1 = "/path" then 1 else 0) ∧
    (∀ s ∈ spansOpened (requestEvents a n res), s.resource = res) ∧
    counterAdds "requests_total" (requestEvents a n res) = 0 := by
  obtain ⟨path, ops⟩ := a
  by_cases hp : path = "/path"
  · cases ops <;>
      simp [requestEvents, hp, spansOpened, spansClosed, spansNamed, counterAdds]
  · simp [requestEvents, hp, spansOpened, spansClosed, spansNamed, counterAdds]

/-- A burst closes each span number as often as it opens it, and opens none twice. -/
theorem burst_counts (arrivals : List (String × Operations)) (n : Nat) (res : Resource)
    (id : Nat) :
    endCount id (burstEvents arrivals n res) = startCount id (burstEvents arrivals n res) ∧
    startCount id (burstEvents arrivals n res) ≤ 1 ∧
    (id < n → startCount id (burstEvents arrivals n res) = 0) := by
  induction arrivals generalizing n with
  | nil => simp [burstEvents, startCount, endCount, spansOpened, spansClosed]
  | cons a rest ih =>
    obtain ⟨h1, h2, h3, h4⟩ := request_counts a n res id
    obtain ⟨i1, i2, i3⟩ := ih (n + spanIdsOf a)
    simp only [burstEvents, startCount_append, endCount_append]
    refine ⟨by omega, ?_, fun h => ?_⟩
    · by_cases hlt : id < n + spanIdsOf a
      · have := i3 hlt
        omega
      · have := h4 (by omega)
        omega
    · have := h3 h
      have := i3 (by omega)
      omega

/-- The facts of `request_spans`, summed over a burst. -/
theorem burst_spans (arrivals : List (String × Operations)) (n : Nat) (res : Resource) :
    (spansClosed (burstEvents arrivals n res)).length =
      (spansOpened (burstEvents arrivals n res)).length ∧
    (spansNamed "my-operation" (burstEvents arrivals n res)).length =
      (arrivals.filter (fun a => a.1 = "/path")).length ∧
    (spansNamed "handler-name" (burstEvents arrivals n res)).length =
      (arrivals.filter (fun a => a.1 = "/path")).length ∧
    (∀ s ∈ spansOpened (burstEvents arrivals n res), s.resource = res) ∧
    counterAdds "requests_total" (burstEvents arrivals n res) = 0 := by
  induction arrivals generalizing n with
  | nil => simp [burstEvents, spansOpened, spansClosed, spansNamed, counterAdds]
  | cons a rest ih =>
    obtain ⟨h1, h2, h3, h4, h5⟩ := request_spans a n res
    obtain ⟨i1, i2, i3, i4, i5⟩ := ih (n + spanIdsOf a)
    refine ⟨?_, ?_, ?_, ?_, ?_⟩
    · simp only [burstEvents, spansOpened_append, spansClosed_append, List.length_append, h1, i1]
    · simp only [spansNamed] at h2 i2 ⊢
      simp only [burstEvents, spansOpened_append, List.filter_append, List.length_append, h2, i2,
        List.filter_cons]
      by_cases hp : a.1 = "/path"
      · simp [hp]
        omega
      · simp [hp]
    · simp only [spansNamed] at h3 i3 ⊢
      simp only [burstEvents, spansOpened_append, List.filter_append, List.length_append, h3, i3,
        List.filter_cons]
      by_cases hp : a.1 = "/path"
      · simp [hp]
        omega
      · simp [hp]
    · intro s hs
      simp only [burstEvents, spansOpened_append, List.mem_append] at hs
      rcases hs with hs | hs
      · exact h4 s hs
      · exact i4 s hs
    · simp only [counterAdds] at h5 i5 ⊢
      simp only [burstEvents, List.countP_append, h5, i5]

/-- The log of the server `main` once the exporter is constructed: the
construction, the listen, the burst, and the tail. -/
theorem server_main_events (lib : Lib) :
    (Server.main { lib with newExporterErr := none } World.init).2.events =
      [Event.newExporter
         [ExporterOption.WithInsecure,
          ExporterOption.WithEndpoint "http://otel-collector:4317",
          ExporterOption.WithHTTPClient] none,
       Event.listen ":8080"] ++
      burstEvents lib.arrivals 1 serviceResource ++ serverTail lib := by
  simp only [Server.main, initTracer, otlp.NewExporter, http.Server.ListenAndServe, serve_run]
  by_cases h : lib.listenErr ≠ none ∧ lib.listenErr ≠ some http.ErrServerClosed
  · simp [h, serverTail, log.Fatalf, World.emit, World.init, otel.SetTracerProvider,
      otel.SetTextMapPropagator, World.resource, otel.Tracer, serviceResource, Server.srv,
      resource.NewWithAttributes, label.String]
  · simp [h, serverTail, log.Fatalf, World.emit, World.init, otel.SetTracerProvider,
      otel.SetTextMapPropagator, World.resource, otel.Tracer, serviceResource, Server.srv,
      resource.NewWithAttributes, label.String, finish, runDeferred]

/-! ## Spans of the server: theorems -/

/-- C1: `myHandler` opens one span and closes that span once, whether its
operations complete, fail or panic; and for every burst of requests served by
the server, with any mix of these exit paths, every span number is opened at
most once and closed as often as it is opened, every opened span is closed
exactly once, the numbers of spans opened and closed are equal, and one span
of `myHandler` and one of its wrapper are opened for each request to the
registered path. -/
theorem spans_opened_equal_spans_closed (lib : Lib) (r : Request) (w : World) :
    (spansOpened ((myHandler r w).2.events.drop w.events.length) =
        [{ traceId := match r.ctx.span with
             | some p => p.traceId
             | none => w.nextId
           spanId := w.nextId
           parent := r.ctx.span.map Span.spanId
           tracer := "my-component"
           name := "my-operation"
           resource := w.resource }] ∧
      spansClosed ((myHandler r w).2.events.drop w.events.length) = [w.nextId] ∧
      spansOpened (myHandler r w).2.events = spansOpened w.events ++
        spansOpened ((myHandler r w).2.events.drop w.events.length) ∧
      spansClosed (myHandler r w).2.events = spansClosed w.events ++ [w.nextId] ∧
      ((myHandler r w).1 = Outcome.panicked ↔ r.operations = Operations.panic)) ∧
    (let evs := (Server.main { lib with newExporterErr := none } World.init).2.events
     (∀ id, startCount id evs ≤ 1 ∧ endCount id evs = startCount id evs) ∧
     (∀ s ∈ spansOpened evs, endCount s.spanId evs = 1) ∧
     (spansClosed evs).length = (spansOpened evs).length ∧
     (spansNamed "my-operation" evs).length =
       (lib.arrivals.filter (fun a => a.1 = "/path")).length ∧
     (spansNamed "handler-name" evs).length =
       (lib.arrivals.filter (fun a => a.1 = "/path")).length) := by
  constructor
  · cases hops : r.operations <;>
      simp [myHandler, hops, finish, runDeferred, Deferred.run, Span.End, Span.AddEvent,
        Tracer.Start, otel.Tracer, World.emit, World.resource, spansOpened, spansClosed,
        List.filterMap_append, label.String]
  · intro evs
    have hev : evs = _ := server_main_events lib
    have htail : spansOpened (serverTail lib) = [] ∧ spansClosed (serverTail lib) = [] := by
      unfold serverTail
      split <;> simp [spansOpened, spansClosed]
    obtain ⟨b1, b2, b3, _, _⟩ := burst_spans lib.arrivals 1 serviceResource
    have hopen : spansOpened evs = spansOpened (burstEvents lib.arrivals 1 serviceResource) := by
      rw [hev, spansOpened_append, spansOpened_append, htail.1]
      simp [spansOpened]
    have hclosed : spansClosed evs = spansClosed (burstEvents lib.arrivals 1 serviceResource) := by
      rw [hev, spansClosed_append, spansClosed_append, htail.2]
      simp [spansClosed]
    have hcount : ∀ id, startCount id evs ≤ 1 ∧ endCount id evs = startCount id evs := by
      intro id
      obtain ⟨c1, c2, _⟩ := burst_counts lib.arrivals 1 serviceResource id
      simp only [startCount, endCount, hopen, hclosed] at c1 c2 ⊢
      exact ⟨c2, c1⟩
    refine ⟨hcount, ?_, ?_, ?_, ?_⟩
    · intro s hs
      obtain ⟨c1, c2⟩ := hcount s.spanId
      have hpos : 0 < startCount s.spanId evs := by
        unfold startCount
        exact List.count_pos_iff.mpr (List.mem_map_of_mem Span.spanId hs)
      omega
    · rw [hopen, hclosed, b1]
    · simp only [spansNamed] at b2 ⊢
      rw [hopen, b2]
    · simp only [spansNamed] at b3 ⊢
      rw [hopen, b3]

/-- C1 at a burst of four requests, with a handler that completes, one that
fails, one that panics and a request to an unregistered path: ten spans are
opened, ten are closed, and each opened span is closed exactly once. -/
theorem spans_opened_equal_spans_closed_witness :
    let evs := (Server.main
      { Lib.quiet with arrivals :=
          [("/path", Operations.ok), ("/path", Operations.error),
           ("/path", Operations.panic), ("/metrics", Operations.ok)] } World.init).2.events
    (spansOpened evs).length = 10 ∧ (spansClosed evs).length = 10 ∧
    (∀ s ∈ spansOpened evs, endCount s.spanId evs = 1) :=
  ⟨by decide, by decide,
    (spans_opened_equal_spans_closed
      { Lib.quiet with arrivals :=
          [("/path", Operations.ok), ("/path", Operations.error),
           ("/path", Operations.panic), ("/metrics", Operations.ok)] }
      { path := "/path", ctx := context.Background, operations := Operations.ok }
      World.init).2.2.1⟩

/-! ## Fail-fast: theorems -/

/-- C2, as stated, fails: when the construction of the Prometheus exporter
returns an error, the listing neither logs it nor exits. -/
theorem prometheus_error_not_fail_fast :
    ¬ (failsFast (Metrics.example
        { Lib.quiet with prometheusErr := some "cannot register the collector" }
        context.Background World.init) = true) := by
  decide

/-- C2, amended: when the construction of the OTLP exporter returns an error,
the `main` of stage 3, steps 2 and 3 of the instrumentation section and the
`main` of the server log it with `log.Fatalf` and the process exits with
nothing after it; when the construction of the Prometheus exporter returns an
error, the listing does not log it and does not exit: it skips the set-up of
the push controller and goes on to the next step. -/
theorem otlp_errors_fail_fast_prometheus_error_skipped
    (lib : Lib) (err : String) (ctx : Context) (w : World) :
    let opts := [ExporterOption.WithInsecure,
      ExporterOption.WithEndpoint "http://otel-collector:4317",
      ExporterOption.WithHTTPClient]
    let failed := { lib with newExporterErr := some err }
    Stage3.main failed w =
      (Outcome.exited, { w with events := w.events ++
        [Event.newExporter opts (some err),
         Event.fatalf ("Failed to create exporter: " ++ err)] }) ∧
    Instrument.step2 failed w =
      (Outcome.exited, { w with events := w.events ++
        [Event.newExporter opts (some err),
         Event.fatalf ("Failed to create exporter: " ++ err)] }) ∧
    Instrument.step3 failed w =
      (Outcome.exited, { w with events := w.events ++
        [Event.newExporter opts (some err),
         Event.fatalf ("Failed to create exporter: " ++ err)] }) ∧
    Server.main failed w =
      (Outcome.exited, { w with events := w.events ++
        [Event.newExporter opts (some err),
         Event.fatalf ("Failed to initialize tracer: " ++ err)] }) ∧
    failsFast (Stage3.main failed w) = true ∧
    failsFast (Instrument.step2 failed w) = true ∧
    failsFast (Instrument.step3 failed w) = true ∧
    failsFast (Server.main failed w) = true ∧
    Metrics.example { lib with prometheusErr := some err } ctx w =
      (Outcome.returned, { w with events := w.events ++
        [Event.newPrometheusExporter (some err),
         Event.counterAdd "requests_total" 1 [("path", "/api/foo")]
           (match w.meterProvider with
            | some mp => mp.resource
            | none => Resource.empty)] }) ∧
    failsFast (Metrics.example { lib with prometheusErr := some err } ctx w) = false := by
  intro opts failed
  have h1 : Stage3.main failed w = (Outcome.exited, { w with events := w.events ++
      [Event.newExporter opts (some err),
       Event.fatalf ("Failed to create exporter: " ++ err)] }) := by
    simp [Stage3.main, otlp.NewExporter, log.Fatalf, World.emit, failed, opts]
  have h2 : Instrument.step2 failed w = (Outcome.exited, { w with events := w.events ++
      [Event.newExporter opts (some err),
       Event.fatalf ("Failed to create exporter: " ++ err)] }) := by
    simp [Instrument.step2, otlp.NewExporter, log.Fatalf, World.emit, failed, opts]
  have h3 : Instrument.step3 failed w = (Outcome.exited, { w with events := w.events ++
      [Event.newExporter opts (some err),
       Event.fatalf ("Failed to create exporter: " ++ err)] }) := by
    simp [Instrument.step3, otlp.NewExporter, log.Fatalf, World.emit, failed, opts]
  have h4 : Server.main failed w = (Outcome.exited, { w with events := w.events ++
      [Event.newExporter opts (some err),
       Event.fatalf ("Failed to initialize tracer: " ++ err)] }) := by
    simp [Server.main, initTracer, otlp.NewExporter, log.Fatalf, World.emit, failed, opts]
  have h5 : Metrics.example { lib with prometheusErr := some err } ctx w =
      (Outcome.returned, { w with events := w.events ++
        [Event.newPrometheusExporter (some err),
         Event.counterAdd "requests_total" 1 [("path", "/api/foo")]
           (match w.meterProvider with
            | some mp => mp.resource
            | none => Resource.empty)] }) := by
    simp [Metrics.example, Metrics.step5, Metrics.step6, finish, runDeferred, World.emit,
      label.String]
  refine ⟨h1, h2, h3, h4, ?_, ?_, ?_, ?_, h5, ?_⟩
  · rw [h1]; simp [failsFast]
  · rw [h2]; simp [failsFast]
  · rw [h3]; simp [failsFast]
  · rw [h4]; simp [failsFast]
  · rw [h5]; simp [failsFast]

/-! ## Resources: theorems -/

/-- C3, as stated, fails: in a process that runs `initTracer` and then the
metrics listing, the metric recorded carries no `service.name`. -/
theorem metric_lacks_service_name :
    ¬ (∀ r ∈ metricResources (Metrics.example Lib.quiet context.Background
          (initTracer Lib.quiet World.init).2).2.events,
        r.get "service.name" = some "my-service") := by
  decide

/-- C3, amended: the tracer provider installed by step 4 and the one installed
by `initTracer` carry a resource with `service.name` set to `my-service`, and
the span of step 5 opened under the provider of step 4 and every span the
server opens carry it; the push controller built on the
Prometheus exporter is given a period and no resource, so the meter provider
it installs and the metric recorded through it carry no `service.name`. -/
theorem service_name_on_spans_not_on_metrics
    (lib : Lib) (exporter : Exporter) (ctx : Context) (w : World) :
    ((Instrument.step4 exporter w).tracerProvider.map
        (fun tp => tp.resource.get "service.name")) = some (some "my-service") ∧
    ((initTracer { lib with newExporterErr := none } w).2.tracerProvider.map
        (fun tp => tp.resource.get "service.name")) = some (some "my-service") ∧
    (spansOpened ((Instrument.step5 (Instrument.step4 exporter w)).2.events.drop
        w.events.length)).map (fun s => (s.name, s.resource.get "service.name")) =
      [("my-operation", some "my-service")] ∧
    (∀ s ∈ spansOpened (Server.main { lib with newExporterErr := none } World.init).2.events,
        s.resource.get "service.name" = some "my-service") ∧
    (Metrics.step5 { lib with prometheusErr := none } w).2.meterProvider =
        some { resource := Resource.empty } ∧
    Resource.empty.get "service.name" = none ∧
    metricResources ((Metrics.example { lib with prometheusErr := none } ctx w).2.events.drop
        w.events.length) = [Resource.empty] := by
  refine ⟨?_, ?_, ?_, ?_, ?_, by decide, ?_⟩
  · simp [Instrument.step4, otel.SetTracerProvider, resource.NewWithAttributes, Resource.get]
  · simp [initTracer, otlp.NewExporter, otel.SetTracerProvider, otel.SetTextMapPropagator,
      resource.NewWithAttributes, label.String, Resource.get]
  · simp [Instrument.step5, Instrument.step4, otel.SetTracerProvider, otel.Tracer, Tracer.Start,
      resource.NewWithAttributes, Resource.get, finish, runDeferred, Deferred.run, Span.End,
      World.emit, spansOpened, context.Background]
  · intro s hs
    have htail : spansOpened (serverTail lib) = [] := by
      unfold serverTail
      split <;> simp [spansOpened]
    rw [server_main_events, spansOpened_append, spansOpened_append, htail] at hs
    simp only [spansOpened, List.filterMap_cons, List.filterMap_nil, List.nil_append,
      List.append_nil] at hs
    obtain ⟨_, _, _, b4, _⟩ := burst_spans lib.arrivals 1 serviceResource
    rw [b4 s hs]
    decide
  · simp [Metrics.step5, metric.SetMeterProvider, World.emit, PushOption.resourceOf]
  · simp [Metrics.example, Metrics.step5, Metrics.step6, metric.SetMeterProvider, World.emit,
      PushOption.resourceOf, finish, runDeferred, Deferred.run, metricResources]

/-! ## One request, end to end: theorems -/

/-- C5, as stated, fails: when the documented server serves one request to
`/path`, no name of a handler makes the spans one trace with one root of that
name together with exactly one addition to `requests_total`, because serving
the request adds nothing to the counter. -/
theorem one_request_no_counter_increment :
    ¬ ∃ handler : String,
      let evs := (Server.main { Lib.quiet with arrivals := [("/path", Operations.ok)] }
        World.init).2.events
      (traceIds evs).length = 1 ∧
      (rootSpans evs).map Span.name = [handler] ∧
      counterAdds "requests_total" evs = 1 := by
  rintro ⟨handler, _, _, hc⟩
  revert hc
  decide

/-- C5, amended: when the documented server serves one request to `/path`,
whatever the operations of the handler do, the spans opened are `http-server`,
`handler-name` and `my-operation`, each the child of the one before, in one
trace whose one root is the span `http-server` of the wrapper around the
multiplexer; serving the request adds nothing to `requests_total`.  The
metrics listing of step 6, where it runs, adds to `requests_total` exactly
once, by 1 and with the label `path` set to `/api/foo`. -/
theorem one_request_one_trace_rooted_at_http_server
    (lib : Lib) (ops : Operations) (ctx : Context) (w : World) :
    (let evs := (Server.main
        { lib with newExporterErr := none, arrivals := [("/path", ops)] } World.init).2.events
     (spansOpened evs).map (fun s => (s.name, s.spanId, s.parent, s.traceId)) =
       [("http-server", 1, none, 1), ("handler-name", 2, some 1, 1),
        ("my-operation", 3, some 2, 1)] ∧
     traceIds evs = [1] ∧
     (rootSpans evs).map Span.name = ["http-server"] ∧
     spansClosed evs = [3, 2, 1] ∧
     counterAdds "requests_total" evs = 0) ∧
    (Metrics.step6 ctx w).events = w.events ++
      [Event.counterAdd "requests_total" 1 [("path", "/api/foo")]
        (match w.meterProvider with
         | some mp => mp.resource
         | none => Resource.empty)] ∧
    counterAdds "requests_total" (Metrics.step6 ctx w).events =
      counterAdds "requests_total" w.events + 1 := by
  have htail : ∀ l : Lib, spansOpened (serverTail l) = [] ∧ spansClosed (serverTail l) = [] ∧
      counterAdds "requests_total" (serverTail l) = 0 := by
    intro l
    unfold serverTail
    split <;> simp [spansOpened, spansClosed, counterAdds]
  refine ⟨?_, ?_, ?_⟩
  · intro evs
    have hev : evs = _ := server_main_events { lib with arrivals := [("/path", ops)] }
    obtain ⟨t1, t2, t3⟩ := htail { lib with arrivals := [("/path", ops)] }
    have hopen : spansOpened evs =
        [{ traceId := 1, spanId := 1, parent := none, tracer := "otelhttp",
           name := "http-server", resource := serviceResource },
         { traceId := 1, spanId := 2, parent := some 1, tracer := "otelhttp",
           name := "handler-name", resource := serviceResource },
         { traceId := 1, spanId := 3, parent := some 2, tracer := "my-component",
           name := "my-operation", resource := serviceResource }] := by
      rw [hev, spansOpened_append, spansOpened_append, t1]
      cases ops <;> simp [spansOpened, burstEvents, requestEvents]
    have hclosed : spansClosed evs = [3, 2, 1] := by
      rw [hev, spansClosed_append, spansClosed_append, t2]
      cases ops <;> simp [spansClosed, burstEvents, requestEvents]
    have hcount : counterAdds "requests_total" evs = 0 := by
      obtain ⟨_, _, _, _, b5⟩ := burst_spans [("/path", ops)] 1 serviceResource
      rw [hev]
      simp only [counterAdds] at b5 t3 ⊢
      simp only [List.countP_append, b5, t3]
      simp
    refine ⟨?_, ?_, ?_, hclosed, hcount⟩
    · rw [hopen]; rfl
    · simp only [traceIds, hopen]; decide
    · simp only [rootSpans, hopen]; decide
  · simp [Metrics.step6, World.emit, label.String]
  · simp [Metrics.step6, World.emit, counterAdds, List.countP_append]

end OTelGo
